import Mathlib

/-!
# Status LED driver (`firmware/src/led.cpp`)

A shallow embedding of the LED driver: the two module variables `task_handle`
and `led_state`, the level of the LED pin, and the part of the scheduler the
driver talks to (`xTaskCreateStatic`, `vTaskDelete`).  Every statement with an
effect is one step; each step is appended to a trace together with the values
of the variables right after it, so that properties of intermediate points of
a call can be stated.
-/

namespace led

/-! ## Data model -/

/-- Enumeration `led_state_t` (led.cpp, lines 47-53). -/
inductive led_state_t
  | PERMANENT
  | BLINK_NOTICE_ALIVE
  | BLINK_CHARGING
  | BLINK_ALARM
  deriving DecidableEq, Repr, Fintype

/-- Stored value of an enumerator: C++ numbers the enumerators 0, 1, 2, 3. -/
def led_state_t.toRaw : led_state_t → Int
  | .PERMANENT => 0
  | .BLINK_NOTICE_ALIVE => 1
  | .BLINK_CHARGING => 2
  | .BLINK_ALARM => 3

/-- Thread of control that executes the code: some application context, the
led task with the given handle, or a task that has been deleted and executes
nothing any more. -/
inductive Thread
  | app
  | task (h : Nat)
  | gone
  deriving DecidableEq, Repr

/-- Statements with an effect: calls of external primitives and assignments to
the two module variables. -/
inductive Event
  | gpio_set_level (level : Nat)
  | set_led_state (raw : Int)
  | set_task_handle (h : Option Nat)
  | xTaskCreateStatic (h : Nat)
  | vTaskDelete (h : Option Nat)
  | sleep (s : Nat)
  | msleep (ms : Nat)
  | LOGE (msg : String)
  deriving DecidableEq, Repr

/-- One executed step: the statement and the variables right after it. -/
structure Step where
  ev : Event
  task_handle : Option Nat
  led_state : Int
  gpio : Nat
  alive : List Nat
  deriving DecidableEq, Repr

/-- State of the driver and of its environment.
* `task_handle`: the variable `task_handle`, `none` for `nullptr`;
* `led_state`: the variable `led_state`, as the stored enumerator value (the
  `default:` arm of `task_fn` is about values that are no enumerator);
* `gpio`: output level of the pin `env::LED`;
* `alive`: handles of the led tasks created and not yet deleted;
* `next`: the handle the scheduler hands out at the next creation;
* `thread`: who executes the code;
* `trace`: the steps executed so far, oldest first. -/
structure World where
  task_handle : Option Nat
  led_state : Int
  gpio : Nat
  alive : List Nat
  next : Nat
  thread : Thread
  trace : List Step
  deriving DecidableEq, Repr

/-- Append a step for `ev` with the current values of the variables. -/
def World.record (ev : Event) (w : World) : World :=
  { w with trace := w.trace ++ [⟨ev, w.task_handle, w.led_state, w.gpio, w.alive⟩] }

/-- Execute one statement: nothing happens when the executing task has been
deleted, otherwise the effect `f` takes place and the step is recorded. -/
def World.exec (ev : Event) (f : World → World) (w : World) : World :=
  if w.thread = Thread.gone then w else (f w).record ev

/-! ## External primitives -/

/-- Primitive `gpio_set_level(env::LED, level)`. -/
def gpio_set_level (level : Nat) (w : World) : World :=
  w.exec (Event.gpio_set_level level) fun w => { w with gpio := level }

/-- Primitive `sleep(s)`: blocks the calling task for `s` seconds. -/
def sleep (s : Nat) (w : World) : World :=
  w.exec (Event.sleep s) id

/-- Primitive `msleep(ms)`: blocks the calling task for `ms` milliseconds. -/
def msleep (ms : Nat) (w : World) : World :=
  w.exec (Event.msleep ms) id

/-- Primitive `LOGE(msg)`. -/
def LOGE (msg : String) (w : World) : World :=
  w.exec (Event.LOGE msg) id

/-- Primitive `xTaskCreateStatic(task_fn, ...)` with the non-null stack and task
buffers of the driver: a new task becomes alive and its handle is returned. -/
def xTaskCreateStatic (w : World) : Nat × World :=
  (w.next, w.exec (Event.xTaskCreateStatic w.next) fun w =>
    { w with alive := w.next :: w.alive, next := w.next + 1 })

/-- Primitive `vTaskDelete(h)`: task `h` stops being alive; a null handle
stands for the calling task.  When the deleted task is the calling task the
call does not return: the thread is gone and executes no further statement. -/
def vTaskDelete (h : Option Nat) (w : World) : World :=
  w.exec (Event.vTaskDelete h) fun w =>
    match h with
    | some t =>
      { w with alive := w.alive.erase t,
               thread := if w.thread = Thread.task t then Thread.gone else w.thread }
    | none =>
      match w.thread with
      | Thread.task t => { w with alive := w.alive.erase t, thread := Thread.gone }
      | _ => { w with thread := Thread.gone }

/-! ## Assignments to the module variables -/

/-- Assignment `led_state = led_state_t::m`. -/
def set_led_state (m : led_state_t) (w : World) : World :=
  w.exec (Event.set_led_state m.toRaw) fun w => { w with led_state := m.toRaw }

/-- Assignment `task_handle = h`. -/
def set_task_handle (h : Option Nat) (w : World) : World :=
  w.exec (Event.set_task_handle h) fun w => { w with task_handle := h }

/-! ## The driver -/

/-- Function `led::stop_task` (lines 112-119). -/
def stop_task (w : World) : World :=
  if w.task_handle = none then w
  else w |> vTaskDelete w.task_handle |> set_task_handle none

/-- Function `led::start_task` (lines 97-111). -/
def start_task (w : World) : World :=
  let w1 := if w.task_handle ≠ none then stop_task w else w
  let r := xTaskCreateStatic w1
  set_task_handle (some r.1) r.2

/-- Function `led::set_permanent_off` (lines 66-71). -/
def set_permanent_off (w : World) : World :=
  w |> stop_task |> set_led_state led_state_t.PERMANENT |> gpio_set_level 0

/-- Function `led::set_permanent_on` (lines 72-77). -/
def set_permanent_on (w : World) : World :=
  w |> stop_task |> set_led_state led_state_t.PERMANENT |> gpio_set_level 1

/-- Function `led::set_blink_notice_alive` (lines 78-83). -/
def set_blink_notice_alive (w : World) : World :=
  w |> gpio_set_level 0 |> set_led_state led_state_t.BLINK_NOTICE_ALIVE |> start_task

/-- Function `led::set_blink_charging` (lines 84-89). -/
def set_blink_charging (w : World) : World :=
  w |> gpio_set_level 0 |> set_led_state led_state_t.BLINK_CHARGING |> start_task

/-- Function `led::set_blink_alarm` (lines 90-95). -/
def set_blink_alarm (w : World) : World :=
  w |> gpio_set_level 0 |> set_led_state led_state_t.BLINK_ALARM |> start_task

/-- Function `led::init` (lines 57-64). -/
def init (w : World) : World :=
  w |> gpio_set_level 0 |> set_permanent_off

/-- One pass through the body of the `for (;;)` loop of `led::task_fn`
(lines 125-160): the `switch` on `led_state`. -/
def task_fn_body (w : World) : World :=
  if w.led_state = led_state_t.PERMANENT.toRaw then
    w |> sleep 1
  else if w.led_state = led_state_t.BLINK_NOTICE_ALIVE.toRaw then
    w |> gpio_set_level 1 |> msleep 100 |> gpio_set_level 0 |> msleep 2900
  else if w.led_state = led_state_t.BLINK_CHARGING.toRaw then
    w |> gpio_set_level 1 |> msleep 500 |> gpio_set_level 0 |> msleep 500
  else if w.led_state = led_state_t.BLINK_ALARM.toRaw then
    w |> gpio_set_level 1 |> msleep 300 |> gpio_set_level 0 |> msleep 300
      |> gpio_set_level 1 |> msleep 300 |> gpio_set_level 0 |> msleep 1100
  else
    w |> LOGE "Invalid led state, turning off" |> set_permanent_off

/-- Function `led::task_fn` (lines 121-161), cut after `n` passes of its
endless loop. -/
def task_fn : Nat → World → World
  | 0, w => w
  | n + 1, w => task_fn n (task_fn_body w)

/-! ## Vocabulary of the properties -/

/-- State of the program before `init`, from the initialisers of the module
variables (lines 30 and 54): no task handle, `led_state` is `PERMANENT`, no led
task exists, the caller is the application; the pin level `g` is arbitrary. -/
def boot (g : Nat) : World :=
  { task_handle := none, led_state := led_state_t.PERMANENT.toRaw, gpio := g,
    alive := [], next := 0, thread := Thread.app, trace := [] }

/-- The five public setters. -/
inductive Setter
  | permanent_off
  | permanent_on
  | blink_notice_alive
  | blink_charging
  | blink_alarm
  deriving DecidableEq, Repr

/-- Call of a public setter. -/
def Setter.call : Setter → World → World
  | .permanent_off => set_permanent_off
  | .permanent_on => set_permanent_on
  | .blink_notice_alive => set_blink_notice_alive
  | .blink_charging => set_blink_charging
  | .blink_alarm => set_blink_alarm

/-- A sequence of setter calls, first element first. -/
def run (ops : List Setter) (w : World) : World :=
  ops.foldl (fun w f => f.call w) w

/-- Steps executed by `f` when started in `w`. -/
def stepsOf (f : World → World) (w : World) : List Step :=
  (f w).trace.drop w.trace.length

/-- Statements executed by `f` when started in `w`. -/
def eventsOf (f : World → World) (w : World) : List Event :=
  (stepsOf f w).map Step.ev

/-- The mode value is one of the three blink enumerators. -/
def isBlink (raw : Int) : Prop :=
  raw = led_state_t.BLINK_NOTICE_ALIVE.toRaw ∨ raw = led_state_t.BLINK_CHARGING.toRaw ∨
    raw = led_state_t.BLINK_ALARM.toRaw

instance (raw : Int) : Decidable (isBlink raw) := by unfold isBlink; infer_instance

/-- Level and duration legs of a trace: every `gpio_set_level l` that is
directly followed by `msleep d` gives the leg `(l, d)`. -/
def pattern : List Event → List (Nat × Nat)
  | Event.gpio_set_level l :: Event.msleep d :: rest => (l, d) :: pattern rest
  | _ :: rest => pattern rest
  | [] => []

/-- A state the application reaches through the public interface while a
blink task is running: charging after `init`. -/
def blinking : World := set_blink_charging (init (boot 1))

/-- A led task at the top of its loop that finds a value in `led_state` that
is no enumerator: the state after `init` and `set_blink_alarm` (task 0 is alive
and recorded in `task_handle`, the pin is low), with 7 injected into
`led_state`, executed by task 0. -/
def corrupted : World :=
  { set_blink_alarm (init (boot 1)) with led_state := 7, thread := Thread.task 0 }

/-- The led task 0 at the top of its loop after `init` and `f`. -/
def taskAfter (f : Setter) : World :=
  { f.call (init (boot 1)) with thread := Thread.task 0 }

/-- Invariant of the states the application reaches through the public
interface. -/
structure Inv (w : World) : Prop where
  app : w.thread = Thread.app
  cons : w.alive = w.task_handle.toList
  hist : ∀ s ∈ w.trace, s.alive.length ≤ 1
  mode : w.task_handle.isSome = true ↔ isBlink w.led_state

/-- The scheduler lets led task `h` execute `n` passes of its loop and then
returns to the interrupted thread; a task that is not alive is never
scheduled. -/
def schedule (h n : Nat) (w : World) : World :=
  if h ∈ w.alive then { task_fn n { w with thread := Thread.task h } with thread := w.thread }
  else w

/-- Task `h` was created in trace `tr` at a point where `led_state` was `m`,
and no assignment to `led_state` has been executed since. -/
def CreatedSince (h : Nat) (m : Int) (tr : List Step) : Prop :=
  ∃ pre s post, tr = pre ++ s :: post ∧ s.ev = Event.xTaskCreateStatic h ∧ s.led_state = m ∧
    ∀ t ∈ post, ∀ r, t.ev ≠ Event.set_led_state r

/-- Invariant of the reachable states that ties the task in `task_handle` to
its creation. -/
structure Born (w : World) : Prop where
  app : w.thread = Thread.app
  cons : w.alive = w.task_handle.toList
  fresh : ∀ h, w.task_handle = some h → h < w.next
  born : ∀ h, w.task_handle = some h → CreatedSince h w.led_state w.trace

/-- Levels written to the pin by a trace, in order. -/
def writes : List Event → List Nat
  | [] => []
  | Event.gpio_set_level l :: rest => l :: writes rest
  | _ :: rest => writes rest

/-- Check of the deletions among the steps: every `vTaskDelete` is passed a
non-null handle of a task that is alive right before the step; `al` are the
tasks alive before the first step. -/
def deletesAlive : List Nat → List Step → Bool
  | _, [] => true
  | al, s :: rest =>
    (match s.ev with
      | Event.vTaskDelete (some t) => decide (t ∈ al)
      | Event.vTaskDelete none => false
      | _ => true) && deletesAlive s.alive rest

/-- The led task 0 at the top of its loop with `led_state` at `PERMANENT`: the
state after `init` and `set_blink_charging` in which the mode has been set
back without stopping the task. -/
def idling : World :=
  { blinking with led_state := led_state_t.PERMANENT.toRaw, thread := Thread.task 0 }

/-! ## Reachable states -/

theorem inv_init (g : Nat) : Inv (init (boot g)) := by
  constructor <;>
    simp [init, boot, set_permanent_off, stop_task, set_led_state, gpio_set_level,
      World.exec, World.record, isBlink, led_state_t.toRaw]

theorem inv_call (f : Setter) (w : World) (hw : Inv w) : Inv (f.call w) := by
  obtain ⟨th, ls, g, al, nx, thr, tr⟩ := w
  obtain ⟨happ, hcons, hhist, -⟩ := hw
  simp only at happ hcons hhist
  subst happ hcons
  constructor <;> cases f <;> cases th <;>
    simp [Setter.call, set_permanent_off, set_permanent_on, set_blink_notice_alive,
      set_blink_charging, set_blink_alarm, start_task, stop_task, xTaskCreateStatic,
      vTaskDelete, set_task_handle, set_led_state, gpio_set_level, World.exec, World.record,
      isBlink, led_state_t.toRaw] <;>
    first
      | done
      | (intro s hs; rcases hs with hs | hs | hs | hs | hs | hs | hs <;>
          first | exact hhist s hs | (subst hs; simp))
      | (intro s hs; rcases hs with hs | hs | hs | hs | hs <;>
          first | exact hhist s hs | (subst hs; simp))
      | (intro s hs; rcases hs with hs | hs | hs | hs <;>
          first | exact hhist s hs | (subst hs; simp))
      | (intro s hs; rcases hs with hs | hs | hs <;>
          first | exact hhist s hs | (subst hs; simp))

theorem inv_run (ops : List Setter) (w : World) (hw : Inv w) : Inv (run ops w) := by
  induction ops generalizing w with
  | nil => exact hw
  | cons f ops ih => exact ih _ (inv_call f w hw)

theorem createdSince_four (h : Nat) (m : Int) (tr : List Step) (a b s t : Step)
    (hs : s.ev = Event.xTaskCreateStatic h) (hm : s.led_state = m)
    (ht : ∀ r, t.ev ≠ Event.set_led_state r) : CreatedSince h m (tr ++ [a, b, s, t]) :=
  ⟨tr ++ [a, b], s, [t], by simp, hs, hm, by simpa using ht⟩

theorem createdSince_six (h : Nat) (m : Int) (tr : List Step) (a b c d s t : Step)
    (hs : s.ev = Event.xTaskCreateStatic h) (hm : s.led_state = m)
    (ht : ∀ r, t.ev ≠ Event.set_led_state r) : CreatedSince h m (tr ++ [a, b, c, d, s, t]) :=
  ⟨tr ++ [a, b, c, d], s, [t], by simp, hs, hm, by simpa using ht⟩

theorem born_init (g : Nat) : Born (init (boot g)) := by
  constructor <;>
    simp [init, boot, set_permanent_off, stop_task, set_led_state, gpio_set_level,
      World.exec, World.record]

theorem born_call (f : Setter) (w : World) (hw : Born w) : Born (f.call w) := by
  obtain ⟨th, ls, g, al, nx, thr, tr⟩ := w
  obtain ⟨happ, hcons, hfresh, -⟩ := hw
  simp only at happ hcons hfresh
  subst happ hcons
  constructor <;> cases f <;> cases th <;>
    simp [Setter.call, set_permanent_off, set_permanent_on, set_blink_notice_alive,
      set_blink_charging, set_blink_alarm, start_task, stop_task, xTaskCreateStatic,
      vTaskDelete, set_task_handle, set_led_state, gpio_set_level, World.exec, World.record] <;>
    first
      | exact createdSince_four _ _ _ _ _ _ _ rfl rfl (by simp)
      | exact createdSince_six _ _ _ _ _ _ _ _ _ rfl rfl (by simp)

theorem born_run (ops : List Setter) (w : World) (hw : Born w) : Born (run ops w) := by
  induction ops generalizing w with
  | nil => exact hw
  | cons f ops ih => exact ih _ (born_call f w hw)

theorem blink_switch (f : Setter) (w : World) (h : Nat)
    (happ : w.thread = Thread.app) (hcons : w.alive = w.task_handle.toList)
    (hrun : w.task_handle = some h) (hfresh : h < w.next)
    (hf : f = Setter.blink_notice_alive ∨ f = Setter.blink_charging ∨ f = Setter.blink_alarm) :
    (f.call w).task_handle = some w.next ∧ (f.call w).alive = [w.next] ∧
    h ∉ (f.call w).alive ∧ (∀ n, schedule h n (f.call w) = f.call w) ∧
    (f = Setter.blink_notice_alive →
      pattern (eventsOf (schedule w.next 1) (f.call w)) = [(1, 100), (0, 2900)]) ∧
    (f = Setter.blink_charging →
      pattern (eventsOf (schedule w.next 1) (f.call w)) = [(1, 500), (0, 500)]) ∧
    (f = Setter.blink_alarm →
      pattern (eventsOf (schedule w.next 1) (f.call w)) =
        [(1, 300), (0, 300), (1, 300), (0, 1100)]) := by
  obtain ⟨th, ls, g, al, nx, thr, tr⟩ := w
  simp only at happ hcons hrun hfresh
  subst happ hcons hrun
  have hne : ¬ h = nx := Nat.ne_of_lt hfresh
  rcases hf with hf | hf | hf <;> subst hf <;>
    simp [Setter.call, set_blink_notice_alive,
      set_blink_charging, set_blink_alarm, start_task, stop_task, xTaskCreateStatic,
      vTaskDelete, set_task_handle, set_led_state, gpio_set_level, msleep, World.exec,
      World.record, schedule, task_fn, task_fn_body, eventsOf, stepsOf, led_state_t.toRaw,
      pattern, hne]

theorem task_fn_blink (n : Nat) (w : World) (hrun : w.thread ≠ Thread.gone)
    (hb : isBlink w.led_state) :
    (task_fn (n + 1) w).gpio = 0 ∧ (task_fn (n + 1) w).led_state = w.led_state ∧
      (task_fn (n + 1) w).task_handle = w.task_handle ∧
      (task_fn (n + 1) w).thread = w.thread := by
  have step : ∀ v : World, v.thread ≠ Thread.gone → isBlink v.led_state →
      (task_fn_body v).gpio = 0 ∧ (task_fn_body v).led_state = v.led_state ∧
        (task_fn_body v).task_handle = v.task_handle ∧
        (task_fn_body v).thread = v.thread := by
    intro v hv hm
    obtain ⟨th, ls, g, al, nx, thr, tr⟩ := v
    simp only at hv hm
    rcases hm with hm | hm | hm <;> subst hm <;>
      simp [task_fn_body, gpio_set_level, msleep, World.exec, World.record,
        led_state_t.toRaw, hv]
  induction n generalizing w with
  | zero => exact step w hrun hb
  | succ n ih =>
    obtain ⟨-, h2, h3, h4⟩ := step w hrun hb
    obtain ⟨k1, k2, k3, k4⟩ := ih (task_fn_body w) (h4 ▸ hrun) (h2 ▸ hb)
    exact ⟨k1, k2.trans h2, k3.trans h3, k4.trans h4⟩

/-! ## Task lifecycle -/

/-- C1: after `init()` from the initial state, whatever sequence of public
setters is called, at most one led task is alive when the sequence has run and
after every single step executed on the way (the steps of `init` and of every
setter call, intermediate steps included). -/
theorem at_most_one_task_alive (g : Nat) (ops : List Setter) :
    (run ops (init (boot g))).alive.length ≤ 1 ∧
      ∀ s ∈ (run ops (init (boot g))).trace, s.alive.length ≤ 1 := by
  have h := inv_run ops _ (inv_init g)
  refine ⟨?_, h.hist⟩
  rw [h.cons]
  cases (run ops (init (boot g))).task_handle <;> simp

/-- C2: from every state (any mode, any pin level, task running or not),
`set_permanent_off` returns with no task handle, no led task alive and the pin
at 0, `set_permanent_on` returns with no task handle, no led task alive and the
pin at 1, and neither of them executes a task creation. -/
theorem set_permanent_stops_task_and_drives_pin (w : World)
    (happ : w.thread = Thread.app) (hcons : w.alive = w.task_handle.toList) :
    ((set_permanent_off w).thread = Thread.app ∧
      (set_permanent_off w).task_handle = none ∧ (set_permanent_off w).alive = [] ∧
      (set_permanent_off w).gpio = 0 ∧
      ∀ h, Event.xTaskCreateStatic h ∉ eventsOf set_permanent_off w) ∧
    ((set_permanent_on w).thread = Thread.app ∧
      (set_permanent_on w).task_handle = none ∧ (set_permanent_on w).alive = [] ∧
      (set_permanent_on w).gpio = 1 ∧
      ∀ h, Event.xTaskCreateStatic h ∉ eventsOf set_permanent_on w) := by
  obtain ⟨th, ls, g, al, nx, thr, tr⟩ := w
  simp only at happ hcons
  subst happ hcons
  cases th <;>
    simp [set_permanent_off, set_permanent_on, stop_task, vTaskDelete, set_task_handle,
      set_led_state, gpio_set_level, World.exec, World.record, eventsOf, stepsOf]

theorem set_permanent_stops_task_and_drives_pin_witness :
    blinking.thread = Thread.app ∧ blinking.alive = blinking.task_handle.toList ∧
    blinking.task_handle = some 0 ∧
    ((set_permanent_off blinking).thread = Thread.app ∧
      (set_permanent_off blinking).task_handle = none ∧
      (set_permanent_off blinking).alive = [] ∧
      (set_permanent_off blinking).gpio = 0 ∧
      ∀ h, Event.xTaskCreateStatic h ∉ eventsOf set_permanent_off blinking) ∧
    ((set_permanent_on blinking).thread = Thread.app ∧
      (set_permanent_on blinking).task_handle = none ∧
      (set_permanent_on blinking).alive = [] ∧
      (set_permanent_on blinking).gpio = 1 ∧
      ∀ h, Event.xTaskCreateStatic h ∉ eventsOf set_permanent_on blinking) :=
  ⟨by decide, by decide, by decide,
    set_permanent_stops_task_and_drives_pin blinking (by decide) (by decide)⟩

/-- C3: from every state, each blink setter returns with `led_state` at its own
blink enumerator, with a task handle present that is the handle of the one led
task alive (the task it has just created), and with the pin at 0; its first
step is its own `gpio_set_level(env::LED, 0)`, after which the pin is 0. -/
theorem blink_setter_postcondition (w : World)
    (happ : w.thread = Thread.app) (hcons : w.alive = w.task_handle.toList) :
    ((set_blink_notice_alive w).thread = Thread.app ∧
      (set_blink_notice_alive w).led_state = led_state_t.BLINK_NOTICE_ALIVE.toRaw ∧
      (set_blink_notice_alive w).task_handle = some w.next ∧
      (set_blink_notice_alive w).alive = [w.next] ∧
      (set_blink_notice_alive w).gpio = 0 ∧
      (stepsOf set_blink_notice_alive w).head? =
        some ⟨Event.gpio_set_level 0, w.task_handle, w.led_state, 0, w.alive⟩) ∧
    ((set_blink_charging w).thread = Thread.app ∧
      (set_blink_charging w).led_state = led_state_t.BLINK_CHARGING.toRaw ∧
      (set_blink_charging w).task_handle = some w.next ∧
      (set_blink_charging w).alive = [w.next] ∧
      (set_blink_charging w).gpio = 0 ∧
      (stepsOf set_blink_charging w).head? =
        some ⟨Event.gpio_set_level 0, w.task_handle, w.led_state, 0, w.alive⟩) ∧
    ((set_blink_alarm w).thread = Thread.app ∧
      (set_blink_alarm w).led_state = led_state_t.BLINK_ALARM.toRaw ∧
      (set_blink_alarm w).task_handle = some w.next ∧
      (set_blink_alarm w).alive = [w.next] ∧
      (set_blink_alarm w).gpio = 0 ∧
      (stepsOf set_blink_alarm w).head? =
        some ⟨Event.gpio_set_level 0, w.task_handle, w.led_state, 0, w.alive⟩) := by
  obtain ⟨th, ls, g, al, nx, thr, tr⟩ := w
  simp only at happ hcons
  subst happ hcons
  cases th <;>
    simp [set_blink_notice_alive, set_blink_charging, set_blink_alarm, start_task, stop_task,
      xTaskCreateStatic, vTaskDelete, set_task_handle, set_led_state, gpio_set_level,
      World.exec, World.record, stepsOf]

theorem blink_setter_postcondition_witness :
    blinking.thread = Thread.app ∧ blinking.alive = blinking.task_handle.toList ∧
    blinking.task_handle = some 0 ∧ blinking.next = 1 ∧
    ((set_blink_notice_alive blinking).thread = Thread.app ∧
      (set_blink_notice_alive blinking).led_state = led_state_t.BLINK_NOTICE_ALIVE.toRaw ∧
      (set_blink_notice_alive blinking).task_handle = some blinking.next ∧
      (set_blink_notice_alive blinking).alive = [blinking.next] ∧
      (set_blink_notice_alive blinking).gpio = 0 ∧
      (stepsOf set_blink_notice_alive blinking).head? =
        some ⟨Event.gpio_set_level 0, blinking.task_handle, blinking.led_state, 0,
          blinking.alive⟩) ∧
    ((set_blink_charging blinking).thread = Thread.app ∧
      (set_blink_charging blinking).led_state = led_state_t.BLINK_CHARGING.toRaw ∧
      (set_blink_charging blinking).task_handle = some blinking.next ∧
      (set_blink_charging blinking).alive = [blinking.next] ∧
      (set_blink_charging blinking).gpio = 0 ∧
      (stepsOf set_blink_charging blinking).head? =
        some ⟨Event.gpio_set_level 0, blinking.task_handle, blinking.led_state, 0,
          blinking.alive⟩) ∧
    ((set_blink_alarm blinking).thread = Thread.app ∧
      (set_blink_alarm blinking).led_state = led_state_t.BLINK_ALARM.toRaw ∧
      (set_blink_alarm blinking).task_handle = some blinking.next ∧
      (set_blink_alarm blinking).alive = [blinking.next] ∧
      (set_blink_alarm blinking).gpio = 0 ∧
      (stepsOf set_blink_alarm blinking).head? =
        some ⟨Event.gpio_set_level 0, blinking.task_handle, blinking.led_state, 0,
          blinking.alive⟩) :=
  ⟨by decide, by decide, by decide, by decide,
    blink_setter_postcondition blinking (by decide) (by decide)⟩

/-! ## Blink patterns -/

/-- C4: one pass of the task loop in a blink mode executes exactly the
documented writes and sleeps: level 1 for 100 ms then 0 for 2900 ms in
`BLINK_NOTICE_ALIVE`, 1 for 500 ms then 0 for 500 ms in `BLINK_CHARGING`, and 1
for 300 ms, 0 for 300 ms, 1 for 300 ms, 0 for 1100 ms in `BLINK_ALARM`; the
durations add up to 3000, 1000 and 2000 ms. -/
theorem task_fn_body_pattern (w : World) (hrun : w.thread ≠ Thread.gone) :
    (w.led_state = led_state_t.BLINK_NOTICE_ALIVE.toRaw →
      eventsOf task_fn_body w =
        [Event.gpio_set_level 1, Event.msleep 100, Event.gpio_set_level 0, Event.msleep 2900] ∧
      pattern (eventsOf task_fn_body w) = [(1, 100), (0, 2900)] ∧
      ((pattern (eventsOf task_fn_body w)).map Prod.snd).sum = 3000) ∧
    (w.led_state = led_state_t.BLINK_CHARGING.toRaw →
      eventsOf task_fn_body w =
        [Event.gpio_set_level 1, Event.msleep 500, Event.gpio_set_level 0, Event.msleep 500] ∧
      pattern (eventsOf task_fn_body w) = [(1, 500), (0, 500)] ∧
      ((pattern (eventsOf task_fn_body w)).map Prod.snd).sum = 1000) ∧
    (w.led_state = led_state_t.BLINK_ALARM.toRaw →
      eventsOf task_fn_body w =
        [Event.gpio_set_level 1, Event.msleep 300, Event.gpio_set_level 0, Event.msleep 300,
          Event.gpio_set_level 1, Event.msleep 300, Event.gpio_set_level 0, Event.msleep 1100] ∧
      pattern (eventsOf task_fn_body w) = [(1, 300), (0, 300), (1, 300), (0, 1100)] ∧
      ((pattern (eventsOf task_fn_body w)).map Prod.snd).sum = 2000) := by
  obtain ⟨th, ls, g, al, nx, thr, tr⟩ := w
  simp only at hrun
  refine ⟨?_, ?_, ?_⟩ <;> intro hm <;> simp only at hm <;> subst hm <;>
    simp [task_fn_body, gpio_set_level, msleep, World.exec, World.record, eventsOf, stepsOf,
      led_state_t.toRaw, hrun, pattern]

theorem task_fn_body_pattern_witness :
    (taskAfter Setter.blink_alarm).thread ≠ Thread.gone ∧
    (taskAfter Setter.blink_alarm).led_state = led_state_t.BLINK_ALARM.toRaw ∧
    eventsOf task_fn_body (taskAfter Setter.blink_alarm) =
      [Event.gpio_set_level 1, Event.msleep 300, Event.gpio_set_level 0, Event.msleep 300,
        Event.gpio_set_level 1, Event.msleep 300, Event.gpio_set_level 0, Event.msleep 1100] ∧
    pattern (eventsOf task_fn_body (taskAfter Setter.blink_alarm)) =
      [(1, 300), (0, 300), (1, 300), (0, 1100)] ∧
    ((pattern (eventsOf task_fn_body (taskAfter Setter.blink_alarm))).map Prod.snd).sum = 2000 :=
  ⟨by decide, by decide,
    (task_fn_body_pattern (taskAfter Setter.blink_alarm) (by decide)).2.2 (by decide)⟩

/-! ## Mode and task handle -/

/-- C5: in every state reached from `init()` by public setter calls, a task
handle is present exactly when `led_state` is one of the three blink
enumerators. -/
theorem handle_present_iff_blink_mode (g : Nat) (ops : List Setter) :
    (run ops (init (boot g))).task_handle.isSome = true ↔
      ((run ops (init (boot g))).led_state = led_state_t.BLINK_NOTICE_ALIVE.toRaw ∨
        (run ops (init (boot g))).led_state = led_state_t.BLINK_CHARGING.toRaw ∨
        (run ops (init (boot g))).led_state = led_state_t.BLINK_ALARM.toRaw) :=
  (inv_run ops _ (inv_init g)).mode

/-- C6: calling a setter a second time right after the first call leaves the
same mode, the same pin level and the same answer to whether a task handle is
present and how many led tasks are alive; for the two permanent setters the
second call leaves every variable as it is and executes only the assignment of
the mode it already has and the `gpio_set_level` of the level it already has. -/
theorem setter_idempotent (f : Setter) (w : World) (happ : w.thread = Thread.app) :
    (f.call (f.call w)).thread = Thread.app ∧
    (f.call (f.call w)).led_state = (f.call w).led_state ∧
    (f.call (f.call w)).gpio = (f.call w).gpio ∧
    (f.call (f.call w)).task_handle.isSome = (f.call w).task_handle.isSome ∧
    (f.call (f.call w)).alive.length = (f.call w).alive.length ∧
    (f = Setter.permanent_off ∨ f = Setter.permanent_on →
      (f.call (f.call w)).task_handle = (f.call w).task_handle ∧
      (f.call (f.call w)).alive = (f.call w).alive ∧
      (f.call (f.call w)).next = (f.call w).next ∧
      eventsOf f.call (f.call w) =
        [Event.set_led_state (f.call w).led_state, Event.gpio_set_level (f.call w).gpio]) := by
  obtain ⟨th, ls, g, al, nx, thr, tr⟩ := w
  simp only at happ
  subst happ
  cases f <;> cases th <;>
    simp [Setter.call, set_permanent_off, set_permanent_on, set_blink_notice_alive,
      set_blink_charging, set_blink_alarm, start_task, stop_task, xTaskCreateStatic,
      vTaskDelete, set_task_handle, set_led_state, gpio_set_level, World.exec, World.record,
      eventsOf, stepsOf]

theorem setter_idempotent_witness :
    blinking.thread = Thread.app ∧
    (set_permanent_on (set_permanent_on blinking)).thread = Thread.app ∧
    (set_permanent_on (set_permanent_on blinking)).led_state =
      (set_permanent_on blinking).led_state ∧
    (set_permanent_on (set_permanent_on blinking)).gpio = (set_permanent_on blinking).gpio ∧
    (set_permanent_on (set_permanent_on blinking)).task_handle.isSome =
      (set_permanent_on blinking).task_handle.isSome ∧
    (set_permanent_on (set_permanent_on blinking)).alive.length =
      (set_permanent_on blinking).alive.length ∧
    (Setter.permanent_on = Setter.permanent_off ∨ Setter.permanent_on = Setter.permanent_on →
      (set_permanent_on (set_permanent_on blinking)).task_handle =
        (set_permanent_on blinking).task_handle ∧
      (set_permanent_on (set_permanent_on blinking)).alive = (set_permanent_on blinking).alive ∧
      (set_permanent_on (set_permanent_on blinking)).next = (set_permanent_on blinking).next ∧
      eventsOf set_permanent_on (set_permanent_on blinking) =
        [Event.set_led_state (set_permanent_on blinking).led_state,
          Event.gpio_set_level (set_permanent_on blinking).gpio]) :=
  ⟨by decide, setter_idempotent Setter.permanent_on blinking (by decide)⟩

/-- C7, as stated, fails: the enumeration has four values, not five, and the
mode after `set_permanent_on` is the same as the mode after
`set_permanent_off`. -/
theorem permanent_on_off_share_mode :
    Fintype.card led_state_t ≠ 5 ∧
    ¬ ((set_permanent_on blinking).led_state ≠ (set_permanent_off blinking).led_state) := by
  decide

/-- C7, amended: `led_state_t` has exactly the four pairwise distinct values
`PERMANENT`, `BLINK_NOTICE_ALIVE`, `BLINK_CHARGING`, `BLINK_ALARM`; each blink
setter leaves `led_state` at its own enumerator, both permanent setters leave
it at `PERMANENT`, and what tells on from off is the pin level, 1 against 0. -/
theorem mode_after_setter (w : World) (happ : w.thread = Thread.app) :
    Fintype.card led_state_t = 4 ∧
    (∀ m : led_state_t, m = led_state_t.PERMANENT ∨ m = led_state_t.BLINK_NOTICE_ALIVE ∨
      m = led_state_t.BLINK_CHARGING ∨ m = led_state_t.BLINK_ALARM) ∧
    Function.Injective led_state_t.toRaw ∧
    (set_permanent_off w).led_state = led_state_t.PERMANENT.toRaw ∧
    (set_permanent_on w).led_state = led_state_t.PERMANENT.toRaw ∧
    (set_blink_notice_alive w).led_state = led_state_t.BLINK_NOTICE_ALIVE.toRaw ∧
    (set_blink_charging w).led_state = led_state_t.BLINK_CHARGING.toRaw ∧
    (set_blink_alarm w).led_state = led_state_t.BLINK_ALARM.toRaw ∧
    (set_permanent_off w).gpio = 0 ∧ (set_permanent_on w).gpio = 1 := by
  obtain ⟨th, ls, g, al, nx, thr, tr⟩ := w
  simp only at happ
  subst happ
  refine ⟨by decide, by decide, by decide, ?_⟩
  cases th <;>
    simp [set_permanent_off, set_permanent_on, set_blink_notice_alive,
      set_blink_charging, set_blink_alarm, start_task, stop_task, xTaskCreateStatic,
      vTaskDelete, set_task_handle, set_led_state, gpio_set_level, World.exec, World.record]

theorem mode_after_setter_witness :
    blinking.thread = Thread.app ∧
    Fintype.card led_state_t = 4 ∧
    (∀ m : led_state_t, m = led_state_t.PERMANENT ∨ m = led_state_t.BLINK_NOTICE_ALIVE ∨
      m = led_state_t.BLINK_CHARGING ∨ m = led_state_t.BLINK_ALARM) ∧
    Function.Injective led_state_t.toRaw ∧
    (set_permanent_off blinking).led_state = led_state_t.PERMANENT.toRaw ∧
    (set_permanent_on blinking).led_state = led_state_t.PERMANENT.toRaw ∧
    (set_blink_notice_alive blinking).led_state = led_state_t.BLINK_NOTICE_ALIVE.toRaw ∧
    (set_blink_charging blinking).led_state = led_state_t.BLINK_CHARGING.toRaw ∧
    (set_blink_alarm blinking).led_state = led_state_t.BLINK_ALARM.toRaw ∧
    (set_permanent_off blinking).gpio = 0 ∧ (set_permanent_on blinking).gpio = 1 :=
  ⟨by decide, mode_after_setter blinking (by decide)⟩

/-! ## Initialisation -/

/-- C8: from every state `init` leaves every variable as `set_permanent_off`
does from that state: pin at 0, `led_state` at `PERMANENT`, no task handle and
no led task alive; started without a task handle, as in the initial state of
the program, it executes two pin writes and the mode assignment and neither
creates nor deletes a task. -/
theorem init_as_set_permanent_off (w : World)
    (happ : w.thread = Thread.app) (hcons : w.alive = w.task_handle.toList) :
    ((init w).task_handle = (set_permanent_off w).task_handle ∧
      (init w).led_state = (set_permanent_off w).led_state ∧
      (init w).gpio = (set_permanent_off w).gpio ∧
      (init w).alive = (set_permanent_off w).alive ∧
      (init w).next = (set_permanent_off w).next ∧
      (init w).thread = (set_permanent_off w).thread) ∧
    ((init w).thread = Thread.app ∧ (init w).gpio = 0 ∧
      (init w).led_state = led_state_t.PERMANENT.toRaw ∧
      (init w).task_handle = none ∧ (init w).alive = []) ∧
    (w.task_handle = none →
      eventsOf init w =
        [Event.gpio_set_level 0, Event.set_led_state led_state_t.PERMANENT.toRaw,
          Event.gpio_set_level 0] ∧
      (init w).next = w.next) := by
  obtain ⟨th, ls, g, al, nx, thr, tr⟩ := w
  simp only at happ hcons
  subst happ hcons
  cases th <;>
    simp [init, set_permanent_off, stop_task, vTaskDelete, set_task_handle,
      set_led_state, gpio_set_level, World.exec, World.record, eventsOf, stepsOf]

theorem init_as_set_permanent_off_witness :
    (boot 1).thread = Thread.app ∧ (boot 1).alive = (boot 1).task_handle.toList ∧
    ((init (boot 1)).task_handle = (set_permanent_off (boot 1)).task_handle ∧
      (init (boot 1)).led_state = (set_permanent_off (boot 1)).led_state ∧
      (init (boot 1)).gpio = (set_permanent_off (boot 1)).gpio ∧
      (init (boot 1)).alive = (set_permanent_off (boot 1)).alive ∧
      (init (boot 1)).next = (set_permanent_off (boot 1)).next ∧
      (init (boot 1)).thread = (set_permanent_off (boot 1)).thread) ∧
    ((init (boot 1)).thread = Thread.app ∧ (init (boot 1)).gpio = 0 ∧
      (init (boot 1)).led_state = led_state_t.PERMANENT.toRaw ∧
      (init (boot 1)).task_handle = none ∧ (init (boot 1)).alive = []) ∧
    ((boot 1).task_handle = none →
      eventsOf init (boot 1) =
        [Event.gpio_set_level 0, Event.set_led_state led_state_t.PERMANENT.toRaw,
          Event.gpio_set_level 0] ∧
      (init (boot 1)).next = (boot 1).next) :=
  ⟨by decide, by decide, init_as_set_permanent_off (boot 1) (by decide) (by decide)⟩

/-! ## Invalid mode -/

/-- C9, evaluated: task 0, recorded in `task_handle`, finds 7 in `led_state`.
It logs the error once and calls `set_permanent_off`, whose `stop_task` deletes
task 0 itself; nothing after that call is executed, so `led_state` is still 7
and not `PERMANENT`, no pin write has taken place and `task_handle` still holds
the handle of the deleted task.  Executed from another thread, the same code
does reach `PERMANENT` with the pin at 0. -/
theorem task_fn_body_invalid_mode_deletes_itself :
    (corrupted.task_handle = some 0 ∧ corrupted.alive = [0] ∧ corrupted.led_state = 7 ∧
      corrupted.thread = Thread.task 0) ∧
    eventsOf task_fn_body corrupted =
      [Event.LOGE "Invalid led state, turning off", Event.vTaskDelete (some 0)] ∧
    (task_fn_body corrupted).led_state = 7 ∧
    (task_fn_body corrupted).led_state ≠ led_state_t.PERMANENT.toRaw ∧
    (task_fn_body corrupted).task_handle = some 0 ∧
    (task_fn_body corrupted).alive = [] ∧
    (task_fn_body corrupted).thread = Thread.gone ∧
    (task_fn_body { corrupted with gpio := 1 }).gpio = 1 ∧
    (task_fn_body { corrupted with gpio := 1, thread := Thread.app }).gpio = 0 ∧
    (task_fn_body { corrupted with gpio := 1, thread := Thread.app }).led_state =
      led_state_t.PERMANENT.toRaw := by
  decide

/-! ## Order of task deletion and mode write -/

/-- C10, as stated, fails: called while task 0 is running, `set_blink_alarm`
executes its assignment to `led_state` at a point where task 0 is still
alive. -/
theorem blink_setter_writes_mode_before_stop :
    blinking.task_handle = some 0 ∧
    ∃ s ∈ stepsOf set_blink_alarm blinking,
      s.ev = Event.set_led_state led_state_t.BLINK_ALARM.toRaw ∧ 0 ∈ s.alive := by
  decide

/-- C10, amended: called while task `h` is running, the two permanent setters
delete `h` and clear the handle before they write `led_state`, so no led task
is alive at the write; the three blink setters write the pin and `led_state`
first, while `h` is still alive, and `start_task` then deletes `h` and clears
the handle before it creates the new task, so that `h` and the new task are
never alive together. -/
theorem order_of_stop_and_mode_write (w : World) (h : Nat)
    (happ : w.thread = Thread.app) (hcons : w.alive = w.task_handle.toList)
    (hrun : w.task_handle = some h) :
    (eventsOf set_permanent_off w =
        [Event.vTaskDelete (some h), Event.set_task_handle none,
          Event.set_led_state led_state_t.PERMANENT.toRaw, Event.gpio_set_level 0] ∧
      (stepsOf set_permanent_off w).map Step.alive = [[], [], [], []]) ∧
    (eventsOf set_permanent_on w =
        [Event.vTaskDelete (some h), Event.set_task_handle none,
          Event.set_led_state led_state_t.PERMANENT.toRaw, Event.gpio_set_level 1] ∧
      (stepsOf set_permanent_on w).map Step.alive = [[], [], [], []]) ∧
    (eventsOf set_blink_notice_alive w =
        [Event.gpio_set_level 0, Event.set_led_state led_state_t.BLINK_NOTICE_ALIVE.toRaw,
          Event.vTaskDelete (some h), Event.set_task_handle none,
          Event.xTaskCreateStatic w.next, Event.set_task_handle (some w.next)] ∧
      (stepsOf set_blink_notice_alive w).map Step.alive =
        [[h], [h], [], [], [w.next], [w.next]]) ∧
    (eventsOf set_blink_charging w =
        [Event.gpio_set_level 0, Event.set_led_state led_state_t.BLINK_CHARGING.toRaw,
          Event.vTaskDelete (some h), Event.set_task_handle none,
          Event.xTaskCreateStatic w.next, Event.set_task_handle (some w.next)] ∧
      (stepsOf set_blink_charging w).map Step.alive =
        [[h], [h], [], [], [w.next], [w.next]]) ∧
    (eventsOf set_blink_alarm w =
        [Event.gpio_set_level 0, Event.set_led_state led_state_t.BLINK_ALARM.toRaw,
          Event.vTaskDelete (some h), Event.set_task_handle none,
          Event.xTaskCreateStatic w.next, Event.set_task_handle (some w.next)] ∧
      (stepsOf set_blink_alarm w).map Step.alive =
        [[h], [h], [], [], [w.next], [w.next]]) := by
  obtain ⟨th, ls, g, al, nx, thr, tr⟩ := w
  simp only at happ hcons hrun
  subst happ hcons hrun
  simp [set_permanent_off, set_permanent_on, set_blink_notice_alive,
    set_blink_charging, set_blink_alarm, start_task, stop_task, xTaskCreateStatic,
    vTaskDelete, set_task_handle, set_led_state, gpio_set_level, World.exec, World.record,
    eventsOf, stepsOf]

theorem order_of_stop_and_mode_write_witness :
    blinking.thread = Thread.app ∧ blinking.alive = blinking.task_handle.toList ∧
    blinking.task_handle = some 0 ∧
    (eventsOf set_permanent_off blinking =
        [Event.vTaskDelete (some 0), Event.set_task_handle none,
          Event.set_led_state led_state_t.PERMANENT.toRaw, Event.gpio_set_level 0] ∧
      (stepsOf set_permanent_off blinking).map Step.alive = [[], [], [], []]) ∧
    (eventsOf set_blink_alarm blinking =
        [Event.gpio_set_level 0, Event.set_led_state led_state_t.BLINK_ALARM.toRaw,
          Event.vTaskDelete (some 0), Event.set_task_handle none,
          Event.xTaskCreateStatic blinking.next, Event.set_task_handle (some blinking.next)] ∧
      (stepsOf set_blink_alarm blinking).map Step.alive =
        [[0], [0], [], [], [blinking.next], [blinking.next]]) :=
  have h := order_of_stop_and_mode_write blinking 0 (by decide) (by decide) (by decide)
  ⟨by decide, by decide, by decide, h.1, h.2.2.2.2⟩

/-! ## Task and mode of its creation -/

/-- C11: in every state reached from `init()` by public setter calls in which
task `h` is recorded in `task_handle`, the trace holds the creation of `h` at
a point where `led_state` had its current value, and no assignment to
`led_state` after it.  A blink setter called in such a state leaves the newly
created task as the only one alive; `h` is not alive any more and is never
scheduled again, and the first pass of the new task executes the pattern of
the new mode. -/
theorem task_created_after_last_mode_write (g : Nat) (ops : List Setter) (h : Nat)
    (hrun : (run ops (init (boot g))).task_handle = some h) :
    (∃ pre s post, (run ops (init (boot g))).trace = pre ++ s :: post ∧
      s.ev = Event.xTaskCreateStatic h ∧
      s.led_state = (run ops (init (boot g))).led_state ∧
      ∀ t ∈ post, ∀ r, t.ev ≠ Event.set_led_state r) ∧
    ∀ f : Setter,
      f = Setter.blink_notice_alive ∨ f = Setter.blink_charging ∨ f = Setter.blink_alarm →
      (f.call (run ops (init (boot g)))).task_handle = some (run ops (init (boot g))).next ∧
      (f.call (run ops (init (boot g)))).alive = [(run ops (init (boot g))).next] ∧
      h ∉ (f.call (run ops (init (boot g)))).alive ∧
      (∀ n, schedule h n (f.call (run ops (init (boot g)))) =
        f.call (run ops (init (boot g)))) ∧
      (f = Setter.blink_notice_alive →
        pattern (eventsOf (schedule (run ops (init (boot g))).next 1)
          (f.call (run ops (init (boot g))))) = [(1, 100), (0, 2900)]) ∧
      (f = Setter.blink_charging →
        pattern (eventsOf (schedule (run ops (init (boot g))).next 1)
          (f.call (run ops (init (boot g))))) = [(1, 500), (0, 500)]) ∧
      (f = Setter.blink_alarm →
        pattern (eventsOf (schedule (run ops (init (boot g))).next 1)
          (f.call (run ops (init (boot g))))) = [(1, 300), (0, 300), (1, 300), (0, 1100)]) := by
  have hw := born_run ops _ (born_init g)
  exact ⟨hw.born h hrun, fun f hf => blink_switch f _ h hw.app hw.cons hrun (hw.fresh h hrun) hf⟩

theorem task_created_after_last_mode_write_witness :
    (run [Setter.blink_charging] (init (boot 1))).task_handle = some 0 ∧
    (run [Setter.blink_charging] (init (boot 1))).next = 1 ∧
    (set_blink_alarm (run [Setter.blink_charging] (init (boot 1)))).task_handle = some 1 ∧
    (set_blink_alarm (run [Setter.blink_charging] (init (boot 1)))).alive = [1] ∧
    (∀ n, schedule 0 n (set_blink_alarm (run [Setter.blink_charging] (init (boot 1)))) =
      set_blink_alarm (run [Setter.blink_charging] (init (boot 1)))) ∧
    pattern (eventsOf (schedule 1 1)
      (set_blink_alarm (run [Setter.blink_charging] (init (boot 1))))) =
        [(1, 300), (0, 300), (1, 300), (0, 1100)] :=
  have h := (task_created_after_last_mode_write 1 [Setter.blink_charging] 0 (by decide)).2
    Setter.blink_alarm (Or.inr (Or.inr rfl))
  ⟨by decide, by decide, h.1, h.2.1, h.2.2.2.1, h.2.2.2.2.2.2 rfl⟩

/-! ## Starting and stopping the task -/

/-- C12: `stop_task` called without a task handle leaves the state as it is and
executes nothing; called with handle `h` by a thread other than task `h`
itself, it executes exactly the deletion of `h` and the clearing of the handle;
in both cases `led_state` and the pin level stay as they are. -/
theorem stop_task_frame (w : World) (hrun : w.thread ≠ Thread.gone)
    (hself : ∀ h, w.task_handle = some h → w.thread ≠ Thread.task h) :
    (w.task_handle = none → stop_task w = w ∧ eventsOf stop_task w = []) ∧
    (∀ h, w.task_handle = some h →
      eventsOf stop_task w = [Event.vTaskDelete (some h), Event.set_task_handle none] ∧
      (stop_task w).task_handle = none ∧ (stop_task w).alive = w.alive.erase h ∧
      (stop_task w).next = w.next ∧ (stop_task w).thread = w.thread) ∧
    (stop_task w).led_state = w.led_state ∧ (stop_task w).gpio = w.gpio := by
  obtain ⟨th, ls, g, al, nx, thr, tr⟩ := w
  simp only at hrun hself
  cases th with
  | none => simp [stop_task, eventsOf, stepsOf]
  | some h =>
    have hne := hself h rfl
    simp [stop_task, vTaskDelete, set_task_handle, World.exec, World.record, eventsOf, stepsOf,
      hrun, hne]

theorem stop_task_frame_witness :
    blinking.thread ≠ Thread.gone ∧
    (∀ h, blinking.task_handle = some h → blinking.thread ≠ Thread.task h) ∧
    blinking.task_handle = some 0 ∧
    (eventsOf stop_task blinking = [Event.vTaskDelete (some 0), Event.set_task_handle none] ∧
      (stop_task blinking).task_handle = none ∧
      (stop_task blinking).alive = blinking.alive.erase 0 ∧
      (stop_task blinking).next = blinking.next ∧
      (stop_task blinking).thread = blinking.thread) ∧
    (stop_task blinking).led_state = blinking.led_state ∧
    (stop_task blinking).gpio = blinking.gpio :=
  have h := stop_task_frame blinking (by decide) (by decide)
  ⟨by decide, by decide, by decide, h.2.1 0 (by decide), h.2.2⟩

/-- C13: `start_task` called without a task handle executes one task creation
and no deletion; called with handle `h` by a thread other than task `h`
itself, it deletes `h`, clears the handle and then creates one task; in both
cases the handle afterwards is that of the task just created, which is alive,
and `led_state` and the pin level stay as they are. -/
theorem start_task_effect (w : World) (hrun : w.thread ≠ Thread.gone)
    (hself : ∀ h, w.task_handle = some h → w.thread ≠ Thread.task h) :
    (w.task_handle = none →
      eventsOf start_task w =
        [Event.xTaskCreateStatic w.next, Event.set_task_handle (some w.next)] ∧
      (start_task w).alive = w.next :: w.alive) ∧
    (∀ h, w.task_handle = some h →
      eventsOf start_task w =
        [Event.vTaskDelete (some h), Event.set_task_handle none,
          Event.xTaskCreateStatic w.next, Event.set_task_handle (some w.next)] ∧
      (start_task w).alive = w.next :: w.alive.erase h) ∧
    (start_task w).task_handle = some w.next ∧ w.next ∈ (start_task w).alive ∧
    (start_task w).led_state = w.led_state ∧ (start_task w).gpio = w.gpio ∧
    (start_task w).thread = w.thread := by
  obtain ⟨th, ls, g, al, nx, thr, tr⟩ := w
  simp only at hrun hself
  cases th with
  | none =>
    simp [start_task, xTaskCreateStatic, set_task_handle, World.exec, World.record, eventsOf,
      stepsOf, hrun]
  | some h =>
    have hne := hself h rfl
    simp [start_task, stop_task, xTaskCreateStatic, vTaskDelete, set_task_handle, World.exec,
      World.record, eventsOf, stepsOf, hrun, hne]

theorem start_task_effect_witness :
    blinking.thread ≠ Thread.gone ∧
    (∀ h, blinking.task_handle = some h → blinking.thread ≠ Thread.task h) ∧
    blinking.task_handle = some 0 ∧ blinking.next = 1 ∧
    (eventsOf start_task blinking =
        [Event.vTaskDelete (some 0), Event.set_task_handle none,
          Event.xTaskCreateStatic blinking.next, Event.set_task_handle (some blinking.next)] ∧
      (start_task blinking).alive = blinking.next :: blinking.alive.erase 0) ∧
    (start_task blinking).task_handle = some blinking.next ∧
    blinking.next ∈ (start_task blinking).alive ∧
    (start_task blinking).led_state = blinking.led_state ∧
    (start_task blinking).gpio = blinking.gpio ∧
    (start_task blinking).thread = blinking.thread :=
  have h := start_task_effect blinking (by decide) (by decide)
  ⟨by decide, by decide, by decide, by decide, h.2.1 0 (by decide), h.2.2⟩

/-! ## Frame of a loop pass -/

/-- C14: a pass of the task loop that finds `PERMANENT` in `led_state` executes
exactly `sleep(1)`, so no pin write, and leaves `led_state`, `task_handle`, the
pin level and the tasks alive as they are. -/
theorem task_fn_body_permanent (w : World) (hrun : w.thread ≠ Thread.gone)
    (hm : w.led_state = led_state_t.PERMANENT.toRaw) :
    eventsOf task_fn_body w = [Event.sleep 1] ∧
    (∀ l, Event.gpio_set_level l ∉ eventsOf task_fn_body w) ∧
    (task_fn_body w).led_state = w.led_state ∧
    (task_fn_body w).task_handle = w.task_handle ∧
    (task_fn_body w).gpio = w.gpio ∧
    (task_fn_body w).alive = w.alive ∧
    (task_fn_body w).next = w.next ∧
    (task_fn_body w).thread = w.thread := by
  obtain ⟨th, ls, g, al, nx, thr, tr⟩ := w
  simp only at hrun hm
  subst hm
  simp [task_fn_body, sleep, World.exec, World.record, eventsOf, stepsOf, hrun]

theorem task_fn_body_permanent_witness :
    idling.thread ≠ Thread.gone ∧ idling.led_state = led_state_t.PERMANENT.toRaw ∧
    idling.gpio = 0 ∧ idling.task_handle = some 0 ∧
    eventsOf task_fn_body idling = [Event.sleep 1] ∧
    (∀ l, Event.gpio_set_level l ∉ eventsOf task_fn_body idling) ∧
    (task_fn_body idling).led_state = idling.led_state ∧
    (task_fn_body idling).task_handle = idling.task_handle ∧
    (task_fn_body idling).gpio = idling.gpio ∧
    (task_fn_body idling).alive = idling.alive ∧
    (task_fn_body idling).next = idling.next ∧
    (task_fn_body idling).thread = idling.thread :=
  ⟨by decide, by decide, by decide, by decide,
    task_fn_body_permanent idling (by decide) (by decide)⟩

/-! ## History independence -/

/-- C15: for each of the five setters, the states it leaves from any two
starting states agree on `led_state`, on the pin level, on whether a task
handle is present and on the number of led tasks alive. -/
theorem setter_history_independent (f : Setter) (w1 w2 : World)
    (happ1 : w1.thread = Thread.app) (hcons1 : w1.alive = w1.task_handle.toList)
    (happ2 : w2.thread = Thread.app) (hcons2 : w2.alive = w2.task_handle.toList) :
    (f.call w1).led_state = (f.call w2).led_state ∧
    (f.call w1).gpio = (f.call w2).gpio ∧
    (f.call w1).task_handle.isSome = (f.call w2).task_handle.isSome ∧
    (f.call w1).alive.length = (f.call w2).alive.length := by
  obtain ⟨th1, ls1, g1, al1, nx1, thr1, tr1⟩ := w1
  obtain ⟨th2, ls2, g2, al2, nx2, thr2, tr2⟩ := w2
  simp only at happ1 hcons1 happ2 hcons2
  subst happ1 hcons1 happ2 hcons2
  cases f <;> cases th1 <;> cases th2 <;>
    simp [Setter.call, set_permanent_off, set_permanent_on, set_blink_notice_alive,
      set_blink_charging, set_blink_alarm, start_task, stop_task, xTaskCreateStatic,
      vTaskDelete, set_task_handle, set_led_state, gpio_set_level, World.exec, World.record]

theorem setter_history_independent_witness :
    (boot 1).thread = Thread.app ∧ (boot 1).alive = (boot 1).task_handle.toList ∧
    blinking.thread = Thread.app ∧ blinking.alive = blinking.task_handle.toList ∧
    (boot 1).task_handle = none ∧ blinking.task_handle = some 0 ∧
    (set_blink_alarm (boot 1)).led_state = (set_blink_alarm blinking).led_state ∧
    (set_blink_alarm (boot 1)).gpio = (set_blink_alarm blinking).gpio ∧
    (set_blink_alarm (boot 1)).task_handle.isSome =
      (set_blink_alarm blinking).task_handle.isSome ∧
    (set_blink_alarm (boot 1)).alive.length = (set_blink_alarm blinking).alive.length :=
  ⟨by decide, by decide, by decide, by decide, by decide, by decide,
    setter_history_independent Setter.blink_alarm (boot 1) blinking
      (by decide) (by decide) (by decide) (by decide)⟩

/-- C16: in each of the three blink modes a pass of the task loop starts with
a pin write of 1, any two consecutive pin writes differ, the pin is at 0 when
the pass ends, and `led_state` and `task_handle` stay as they are; so after
any number of passes, one at least, the pin is at 0. -/
theorem task_fn_body_blink_frame (w : World) (hrun : w.thread ≠ Thread.gone)
    (hb : w.led_state = led_state_t.BLINK_NOTICE_ALIVE.toRaw ∨
      w.led_state = led_state_t.BLINK_CHARGING.toRaw ∨
      w.led_state = led_state_t.BLINK_ALARM.toRaw) :
    (eventsOf task_fn_body w).head? = some (Event.gpio_set_level 1) ∧
    (writes (eventsOf task_fn_body w)).head? = some 1 ∧
    List.Chain' (fun a b => a ≠ b) (writes (eventsOf task_fn_body w)) ∧
    (writes (eventsOf task_fn_body w)).getLast? = some 0 ∧
    (task_fn_body w).gpio = 0 ∧
    (task_fn_body w).led_state = w.led_state ∧
    (task_fn_body w).task_handle = w.task_handle ∧
    ∀ n, (task_fn (n + 1) w).gpio = 0 ∧ (task_fn (n + 1) w).led_state = w.led_state ∧
      (task_fn (n + 1) w).task_handle = w.task_handle := by
  refine ⟨?_, ?_, ?_, ?_, ?_, ?_, ?_, fun n => ?_⟩
  case refine_8 =>
    obtain ⟨k1, k2, k3, -⟩ := task_fn_blink n w hrun hb
    exact ⟨k1, k2, k3⟩
  all_goals
    obtain ⟨th, ls, g, al, nx, thr, tr⟩ := w
    simp only at hrun hb
    rcases hb with hb | hb | hb <;> subst hb <;>
      simp [task_fn_body, gpio_set_level, msleep, World.exec, World.record, eventsOf, stepsOf,
        led_state_t.toRaw, hrun, writes]

theorem task_fn_body_blink_frame_witness :
    (taskAfter Setter.blink_notice_alive).thread ≠ Thread.gone ∧
    (taskAfter Setter.blink_notice_alive).led_state = led_state_t.BLINK_NOTICE_ALIVE.toRaw ∧
    (eventsOf task_fn_body (taskAfter Setter.blink_notice_alive)).head? =
      some (Event.gpio_set_level 1) ∧
    (writes (eventsOf task_fn_body (taskAfter Setter.blink_notice_alive))).head? = some 1 ∧
    List.Chain' (fun a b => a ≠ b)
      (writes (eventsOf task_fn_body (taskAfter Setter.blink_notice_alive))) ∧
    (writes (eventsOf task_fn_body (taskAfter Setter.blink_notice_alive))).getLast? = some 0 ∧
    (task_fn_body (taskAfter Setter.blink_notice_alive)).gpio = 0 ∧
    (task_fn_body (taskAfter Setter.blink_notice_alive)).led_state =
      (taskAfter Setter.blink_notice_alive).led_state ∧
    (task_fn_body (taskAfter Setter.blink_notice_alive)).task_handle =
      (taskAfter Setter.blink_notice_alive).task_handle ∧
    ∀ n, (task_fn (n + 1) (taskAfter Setter.blink_notice_alive)).gpio = 0 ∧
      (task_fn (n + 1) (taskAfter Setter.blink_notice_alive)).led_state =
        (taskAfter Setter.blink_notice_alive).led_state ∧
      (task_fn (n + 1) (taskAfter Setter.blink_notice_alive)).task_handle =
        (taskAfter Setter.blink_notice_alive).task_handle :=
  ⟨by decide, by decide,
    task_fn_body_blink_frame (taskAfter Setter.blink_notice_alive) (by decide)
      (Or.inl (by decide))⟩

/-! ## Deletions -/

/-- C17: in every state in which the led tasks alive are exactly the one in
`task_handle`, `init` and each of the five setters pass to `vTaskDelete` only
non-null handles of tasks that are alive at the moment of the call. -/
theorem deletions_on_alive_tasks (w : World)
    (happ : w.thread = Thread.app) (hcons : w.alive = w.task_handle.toList) :
    (deletesAlive w.alive (stepsOf init w) = true ∧
      Event.vTaskDelete none ∉ eventsOf init w) ∧
    ∀ f : Setter, deletesAlive w.alive (stepsOf f.call w) = true ∧
      Event.vTaskDelete none ∉ eventsOf f.call w := by
  obtain ⟨th, ls, g, al, nx, thr, tr⟩ := w
  simp only at happ hcons
  subst happ hcons
  refine ⟨?_, fun f => ?_⟩
  · cases th <;>
      simp [init, set_permanent_off, stop_task, vTaskDelete, set_task_handle, set_led_state,
        gpio_set_level, World.exec, World.record, eventsOf, stepsOf, deletesAlive]
  · cases f <;> cases th <;>
      simp [Setter.call, set_permanent_off, set_permanent_on, set_blink_notice_alive,
        set_blink_charging, set_blink_alarm, start_task, stop_task, xTaskCreateStatic,
        vTaskDelete, set_task_handle, set_led_state, gpio_set_level, World.exec, World.record,
        eventsOf, stepsOf, deletesAlive]

theorem deletions_on_alive_tasks_witness :
    blinking.thread = Thread.app ∧ blinking.alive = blinking.task_handle.toList ∧
    blinking.task_handle = some 0 ∧
    eventsOf set_blink_alarm blinking =
      [Event.gpio_set_level 0, Event.set_led_state led_state_t.BLINK_ALARM.toRaw,
        Event.vTaskDelete (some 0), Event.set_task_handle none,
        Event.xTaskCreateStatic 1, Event.set_task_handle (some 1)] ∧
    (deletesAlive blinking.alive (stepsOf init blinking) = true ∧
      Event.vTaskDelete none ∉ eventsOf init blinking) ∧
    ∀ f : Setter, deletesAlive blinking.alive (stepsOf f.call blinking) = true ∧
      Event.vTaskDelete none ∉ eventsOf f.call blinking :=
  ⟨by decide, by decide, by decide, by decide,
    deletions_on_alive_tasks blinking (by decide) (by decide)⟩

end led
